import Mathlib

/-!
Shallow embedding of the nats-heartbeat monitor (Go) for specification checking.

Durations and timestamps are modelled as integer nanoseconds, mirroring Go's
int64-based time.Duration and time.Time; the Go zero time is modelled as 0.
The JSON byte layer of encoding/json is modelled by a small value type
(JVal) together with an object representation (association list of fields),
so that marshalling produces the wire fields exactly as the Go struct tags
dictate, and unmarshalling reads them back with Go's zero-value semantics
for missing fields.
-/

abbrev Duration := Int
abbrev Time := Int

/-- One nanosecond-scale second, matching Go's time.Second. -/
def second : Duration := 1000000000

namespace Heartbeat

/-- Message describes a heartbeat payload exchanged over NATS
(message.go). The `host` field is not present in the archived copy of
message.go; Modelled from the spec: `host` (optional string) is part of the
wire message (spec section 6) and of the Message struct exercised by the
publisher tests; it carries no validation. All other fields and all logic of
Validate / Marshal / Unmarshal follow message.go. -/
structure Message where
  subject : String
  generatedAt : Time
  interval : Duration
  skippable : Option Int
  gracePeriod : Option Duration
  description : String
  host : String
deriving Repr, DecidableEq

/-- Validate ensures required fields are present and well-formed
(message.go); returns the error message, or none on success. -/
def Message.Validate (m : Message) : Option String :=
  if m.subject = "" then
    some "subject is required"
  else if m.generatedAt = 0 then
    some "generated_at is required"
  else if m.interval ≤ 0 then
    some "interval must be >0"
  else if (match m.skippable with | some k => decide (k < 0) | none => false) then
    some "skippable cannot be negative"
  else if (match m.gracePeriod with | some g => decide (g < 0) | none => false) then
    some "grace period cannot be negative"
  else
    none

/-- A JSON value as produced by encoding/json for the Message struct:
strings, int64-backed numbers (durations, counters), and RFC3339-formatted
times (kept abstract as the timestamp they denote; the formatting is
injective at nanosecond precision). -/
inductive JVal where
  | str : String → JVal
  | num : Int → JVal
  | time : Time → JVal
deriving Repr, DecidableEq

/-- A JSON object: the ordered field list produced by encoding/json. -/
abbrev JObj := List (String × JVal)

/-- The field list json.Marshal produces for a Message per its struct
tags, omitting the omitempty fields that hold their zero value (nil
pointers, empty strings). -/
def Message.encodeFields (m : Message) : JObj :=
  [("subject", JVal.str m.subject),
   ("generated_at", JVal.time m.generatedAt),
   ("interval", JVal.num m.interval)]
  ++ (match m.skippable with
      | some k => [("skippable", JVal.num k)]
      | none => [])
  ++ (match m.gracePeriod with
      | some g => [("grace_period", JVal.num g)]
      | none => [])
  ++ (if m.description = "" then [] else [("description", JVal.str m.description)])
  ++ (if m.host = "" then [] else [("host", JVal.str m.host)])

/-- Marshal renders the message as JSON for transport (message.go):
it validates first, then encodes. -/
def Message.Marshal (m : Message) : Except String JObj :=
  match m.Validate with
  | some e => .error e
  | none => .ok m.encodeFields

/-- Read a string field the way json.Unmarshal fills a Go string:
a missing field keeps the zero value "", a mistyped field is a decode error. -/
def getString (o : JObj) (k : String) : Option String :=
  match o.lookup k with
  | none => some ""
  | some (JVal.str s) => some s
  | some _ => none

/-- Read a time.Time field: missing keeps the zero time, mistyped errors. -/
def getTime (o : JObj) (k : String) : Option Time :=
  match o.lookup k with
  | none => some 0
  | some (JVal.time t) => some t
  | some _ => none

/-- Read a time.Duration field: missing keeps 0, mistyped errors. -/
def getDuration (o : JObj) (k : String) : Option Duration :=
  match o.lookup k with
  | none => some 0
  | some (JVal.num n) => some n
  | some _ => none

/-- Read an optional pointer field (*int): missing keeps nil. -/
def getOptInt (o : JObj) (k : String) : Option (Option Int) :=
  match o.lookup k with
  | none => some none
  | some (JVal.num n) => some (some n)
  | some _ => none

/-- Read an optional pointer field (*time.Duration): missing keeps nil. -/
def getOptDuration (o : JObj) (k : String) : Option (Option Duration) :=
  match o.lookup k with
  | none => some none
  | some (JVal.num n) => some (some n)
  | some _ => none

/-- json.Unmarshal of a parsed JSON object into a Message value. -/
def jsonDecode (o : JObj) : Option Message := do
  let subject ← getString o "subject"
  let generatedAt ← getTime o "generated_at"
  let interval ← getDuration o "interval"
  let skippable ← getOptInt o "skippable"
  let gracePeriod ← getOptDuration o "grace_period"
  let description ← getString o "description"
  let host ← getString o "host"
  some { subject, generatedAt, interval, skippable, gracePeriod, description, host }

/-- Unmarshal decodes a heartbeat message from JSON (message.go).
The input is the result of parsing the raw bytes: none when the bytes are
not valid JSON, some o for a parsed object o. Decoding then validates. -/
def Unmarshal (data : Option JObj) : Except String Message :=
  match data with
  | none => .error "invalid json"
  | some o =>
    match jsonDecode o with
    | none => .error "cannot unmarshal message"
    | some msg =>
      match msg.Validate with
      | some e => .error e
      | none => .ok msg

end Heartbeat

namespace Monitor

open Heartbeat

/-- Per-subject liveness record (state.go). Go zero values: alertActive
false, missCount 0, lastAlert the zero time. -/
structure state where
  subject : String
  description : String
  host : String
  lastSeen : Time
  interval : Duration
  grace : Option Duration
  alertActive : Bool
  missCount : Int
  lastAlert : Time
deriving Repr, DecidableEq

/-- descriptionOrSubject (state.go): the message description, falling back
to the subject when empty. -/
def descriptionOrSubject (msg : Message) : String :=
  if msg.description ≠ "" then msg.description else msg.subject

/-- newState (state.go): fields from the message; the remaining fields
keep their Go zero values. -/
def newState (msg : Message) : state :=
  { subject := msg.subject
    description := descriptionOrSubject msg
    host := msg.host
    lastSeen := msg.generatedAt
    interval := msg.interval
    grace := msg.gracePeriod
    alertActive := false
    missCount := 0
    lastAlert := 0 }

/-- allowedWindow (state.go): the grace period when set and positive,
otherwise the interval. -/
def state.allowedWindow (s : state) : Duration :=
  match s.grace with
  | some g => if 0 < g then g else s.interval
  | none => s.interval

/-- Alert/Resolved notification payload (notifier.Event), as constructed
by monitor.go; fields not set at a construction site keep their zero value. -/
structure Event where
  subject : String
  description : String
  host : String
  lastSeen : Time
  interval : Duration
  missFor : Duration
  missCount : Int
deriving Repr, DecidableEq

/-- The body of the scan loop of monitor.go for one stored subject, at
wall-clock time now: returns the updated state, the Alert events and the
Resolved events this subject contributes to the collected lists.
Go's integer division on durations truncates toward zero (Int.tdiv). -/
def scanOne (repeatEvery now : Int) (s : state) : state × List Event × List Event :=
  let elapsed := now - s.lastSeen
  let allowed := s.allowedWindow
  if elapsed ≤ allowed then
    if s.alertActive then
      ({ s with alertActive := false, missCount := 0, lastAlert := 0 },
       [],
       [{ subject := s.subject, description := s.description, host := s.host,
          lastSeen := s.lastSeen, interval := s.interval,
          missFor := elapsed, missCount := s.missCount }])
    else
      (s, [], [])
  else
    let s1 : state := { s with missCount := elapsed.tdiv s.interval }
    if s1.alertActive = false then
      ({ s1 with alertActive := true, lastAlert := now },
       [{ subject := s1.subject, description := s1.description, host := s1.host,
          lastSeen := s1.lastSeen, interval := s1.interval,
          missFor := elapsed, missCount := s1.missCount }],
       [])
    else if repeatEvery ≤ now - s1.lastAlert then
      ({ s1 with lastAlert := now },
       [{ subject := s1.subject, description := s1.description, host := s1.host,
          lastSeen := s1.lastSeen, interval := s1.interval,
          missFor := elapsed, missCount := s1.missCount }],
       [])
    else
      (s1, [], [])

/-- scan (monitor.go): one poll tick over the whole store (modelled as the
list of stored states), collecting the to-alert and to-resolve event lists
that are dispatched after the critical section. -/
def scan (repeatEvery now : Int) : List state → List state × List Event × List Event
  | [] => ([], [], [])
  | s :: rest =>
    let r1 := scanOne repeatEvery now s
    let r2 := scan repeatEvery now rest
    (r1.1 :: r2.1, r1.2.1 ++ r2.2.1, r1.2.2 ++ r2.2.2)

/-- The known-subject branch of handleMessage (monitor.go): overwrite the
tracked fields from the message, then clear the alert state if it was
active (note: lastAlert is not touched on this path). -/
def ingestUpdate (hb : Message) (s : state) : state :=
  let s1 : state :=
    { s with lastSeen := hb.generatedAt
             interval := hb.interval
             grace := hb.gracePeriod
             host := hb.host
             description := descriptionOrSubject hb }
  if s1.alertActive then
    { s1 with alertActive := false, missCount := 0 }
  else
    s1

/-- handleMessage (monitor.go): decode and validate the payload (dropping
it on error), then create the subject on first contact or update it in
place, emitting one Resolved event when an active alert is cleared. The Go
map store is modelled as a list of states keyed by their subject field. -/
def handleMessage (payload : Option JObj) (store : List state) :
    List state × List Event :=
  match Unmarshal payload with
  | .error _ => (store, [])
  | .ok hb =>
    match store.find? (fun t => t.subject == hb.subject) with
    | none => (store ++ [newState hb], [])
    | some s =>
      let s' := ingestUpdate hb s
      let store' := store.map (fun t => if t.subject == hb.subject then ingestUpdate hb t else t)
      if s.alertActive then
        (store',
         [{ subject := s'.subject, description := s'.description, host := s'.host,
            lastSeen := s'.lastSeen, interval := s'.interval,
            missFor := 0, missCount := 0 }])
      else
        (store', [])

/-- One row of the status snapshot (monitor.go subjectState); the
formatted duration strings of the Go struct are modelled by the durations
they format, and the optional grace string by the optional duration. -/
structure subjectState where
  subject : String
  description : String
  host : String
  lastSeen : Time
  interval : Duration
  grace : Option Duration
  allowedWindow : Duration
  missing : Bool
  missFor : Duration
  missCount : Int
  alertActive : Bool
deriving Repr, DecidableEq

/-- The loop body of snapshot (monitor.go) for one stored subject:
a pure read recomputing elapsed, allowed, missing and the miss counters
at the observation time. -/
def snapshotOne (now : Time) (s : state) : subjectState :=
  let allowed := s.allowedWindow
  let elapsed := now - s.lastSeen
  let missing : Bool := allowed < elapsed
  let missFor : Duration := if missing then elapsed else 0
  let missCount : Int :=
    if missing then (if 0 < s.interval then elapsed.tdiv s.interval else 0) else 0
  { subject := s.subject
    description := s.description
    host := s.host
    lastSeen := s.lastSeen
    interval := s.interval
    grace := match s.grace with
             | some g => if 0 < g then some g else none
             | none => none
    allowedWindow := allowed
    missing := missing
    missFor := missFor
    missCount := missCount
    alertActive := s.alertActive }

/-- snapshot (monitor.go): the rows for all stored subjects, sorted by
subject name (sort.Slice with a subject-name comparison). -/
def snapshot (now : Time) (store : List state) : List subjectState :=
  (store.map (snapshotOne now)).mergeSort (fun a b => a.subject ≤ b.subject)

/-- snapshot as a store operation: the Go body reads the states under the
lock, writes no state field and calls no notifier, so its effect on the
store and on the event stream is recorded explicitly alongside the rows it
returns. -/
def snapshotOp (now : Time) (store : List state) :
    List state × List subjectState × List Event :=
  (store, snapshot now store, [])

/-- The stores reachable by the monitor: the empty store at startup, then
any interleaving of handleMessage calls (live traffic or cache priming)
and scan ticks. -/
inductive Reachable : List state → Prop
  | init : Reachable []
  | ingest (payload : Option JObj) (store : List state) :
      Reachable store → Reachable (handleMessage payload store).1
  | tick (repeatEvery now : Int) (store : List state) :
      Reachable store → Reachable (scan repeatEvery now store).1

end Monitor

section Examples

open Heartbeat Monitor

/-- A minimal valid heartbeat message: subject svc, generated at 1s,
interval 1s. -/
def msg0 : Message :=
  { subject := "svc", generatedAt := second, interval := second,
    skippable := none, gracePeriod := none, description := "", host := "" }

/-- The wire object carrying msg0. -/
def obj0 : JObj :=
  [("subject", JVal.str "svc"), ("generated_at", JVal.time second),
   ("interval", JVal.num second)]

/-- A later heartbeat for the same subject, generated at 10s. -/
def msg1 : Message :=
  { subject := "svc", generatedAt := 10 * second, interval := second,
    skippable := none, gracePeriod := none, description := "", host := "" }

/-- The wire object carrying msg1. -/
def obj1 : JObj :=
  [("subject", JVal.str "svc"), ("generated_at", JVal.time (10 * second)),
   ("interval", JVal.num second)]

/-- A stored subject in the MISSING state with a nonzero lastAlert. -/
def alertSt : Monitor.state :=
  { subject := "svc", description := "svc", host := "", lastSeen := second,
    interval := second, grace := none, alertActive := true,
    missCount := 3, lastAlert := 7 }

/-- A stored subject with interval 3s and grace 5s, inside its window. -/
def graceSt : Monitor.state :=
  { subject := "svc", description := "svc", host := "", lastSeen := 0,
    interval := 3 * second, grace := some (5 * second), alertActive := false,
    missCount := 0, lastAlert := 0 }

end Examples

namespace Heartbeat

/-- Validate succeeds exactly on the well-formed messages. -/
theorem Message.Validate_eq_none_iff (m : Message) :
    m.Validate = none ↔
      m.subject ≠ "" ∧ m.generatedAt ≠ 0 ∧ 0 < m.interval ∧
      (∀ k, m.skippable = some k → 0 ≤ k) ∧
      (∀ g, m.gracePeriod = some g → 0 ≤ g) := by
  rcases m with ⟨subj, gen, itv, skip, grace, desc, host⟩
  rcases skip with _ | k <;> rcases grace with _ | g <;>
    simp [Message.Validate] <;> split_ifs <;> simp_all <;> omega

/-- A successfully unmarshalled message has passed Validate. -/
theorem Unmarshal_ok_Validate {d : Option JObj} {m : Message}
    (h : Unmarshal d = .ok m) : m.Validate = none := by
  unfold Unmarshal at h
  split at h
  · exact absurd h (by simp)
  · split at h
    · exact absurd h (by simp)
    · split at h
      · exact absurd h (by simp)
      · rename_i msg hv
        injection h with h
        subst h
        exact hv

/-- Validate fails exactly on the malformed messages. -/
theorem Message.Validate_ne_none_iff (m : Message) :
    m.Validate ≠ none ↔
      (m.subject = "" ∨ m.generatedAt = 0 ∨ m.interval ≤ 0 ∨
       (∃ k, m.skippable = some k ∧ k < 0) ∨
       (∃ g, m.gracePeriod = some g ∧ g < 0)) := by
  rcases m with ⟨subj, gen, itv, skip, grace, desc, host⟩
  rcases skip with _ | k <;> rcases grace with _ | g <;>
    simp [Message.Validate] <;> split_ifs <;> simp_all <;> omega

/-- Decoding reads back exactly the fields Marshal wrote, with Go's
zero values standing in for the omitted omitempty fields. -/
theorem jsonDecode_encodeFields (m : Message) :
    jsonDecode m.encodeFields = some m := by
  rcases m with ⟨subj, gen, itv, skip, grace, desc, host⟩
  rcases skip with _ | k <;> rcases grace with _ | g <;>
    by_cases hd : desc = "" <;> by_cases hh : host = "" <;>
      simp_all [Message.encodeFields, jsonDecode, getString, getTime,
                getDuration, getOptInt, getOptDuration, List.lookup]

end Heartbeat

namespace Monitor

open Heartbeat

/-- A state with a positive interval has a positive allowed window. -/
theorem allowedWindow_pos {s : state} (h : 0 < s.interval) :
    0 < s.allowedWindow := by
  unfold state.allowedWindow
  rcases s.grace with _ | g
  · exact h
  · dsimp only
    split <;> [assumption; exact h]

/-- scanOne leaves the identity and timing fields of the state unchanged. -/
theorem scanOne_preserves (repeatEvery now : Int) (s : state) :
    (scanOne repeatEvery now s).1.subject = s.subject ∧
    (scanOne repeatEvery now s).1.lastSeen = s.lastSeen ∧
    (scanOne repeatEvery now s).1.interval = s.interval ∧
    (scanOne repeatEvery now s).1.grace = s.grace := by
  unfold scanOne
  dsimp only
  split <;> split <;> simp_all <;> split <;> simp

/-- The quiet branch of the scan body: within the window and not alerting,
nothing changes and nothing is emitted. -/
theorem scanOne_ok {repeatEvery now : Int} {s : state}
    (hw : now - s.lastSeen ≤ s.allowedWindow) (ha : s.alertActive = false) :
    scanOne repeatEvery now s = (s, [], []) := by
  unfold scanOne
  simp [hw, ha]

/-- The recovery branch of the scan body: within the window with an active
alert, the alert state is cleared and one Resolved event is emitted. -/
theorem scanOne_resolve {repeatEvery now : Int} {s : state}
    (hw : now - s.lastSeen ≤ s.allowedWindow) (ha : s.alertActive = true) :
    scanOne repeatEvery now s =
      ({ s with alertActive := false, missCount := 0, lastAlert := 0 },
       [],
       [{ subject := s.subject, description := s.description, host := s.host,
          lastSeen := s.lastSeen, interval := s.interval,
          missFor := now - s.lastSeen, missCount := s.missCount }]) := by
  unfold scanOne
  simp [hw, ha]

/-- The fresh-alert branch of the scan body. -/
theorem scanOne_alert {repeatEvery now : Int} {s : state}
    (hw : s.allowedWindow < now - s.lastSeen) (ha : s.alertActive = false) :
    scanOne repeatEvery now s =
      ({ s with missCount := (now - s.lastSeen).tdiv s.interval,
                alertActive := true, lastAlert := now },
       [{ subject := s.subject, description := s.description, host := s.host,
          lastSeen := s.lastSeen, interval := s.interval,
          missFor := now - s.lastSeen,
          missCount := (now - s.lastSeen).tdiv s.interval }],
       []) := by
  unfold scanOne
  simp [not_le.mpr hw, ha]

/-- The repeat-alert branch of the scan body. -/
theorem scanOne_repeat {repeatEvery now : Int} {s : state}
    (hw : s.allowedWindow < now - s.lastSeen) (ha : s.alertActive = true)
    (hr : repeatEvery ≤ now - s.lastAlert) :
    scanOne repeatEvery now s =
      ({ s with missCount := (now - s.lastSeen).tdiv s.interval,
                lastAlert := now },
       [{ subject := s.subject, description := s.description, host := s.host,
          lastSeen := s.lastSeen, interval := s.interval,
          missFor := now - s.lastSeen,
          missCount := (now - s.lastSeen).tdiv s.interval }],
       []) := by
  unfold scanOne
  simp [not_le.mpr hw, ha, hr]

/-- The debounced branch of the scan body: still missing, but inside the
repeat window; only the miss count is refreshed, nothing is emitted. -/
theorem scanOne_debounce {repeatEvery now : Int} {s : state}
    (hw : s.allowedWindow < now - s.lastSeen) (ha : s.alertActive = true)
    (hr : now - s.lastAlert < repeatEvery) :
    scanOne repeatEvery now s =
      ({ s with missCount := (now - s.lastSeen).tdiv s.interval }, [], []) := by
  unfold scanOne
  simp [not_le.mpr hw, ha, not_le.mpr hr]

/-- A scan tick rewrites the store pointwise through the scan body. -/
theorem scan_fst (repeatEvery now : Int) (store : List state) :
    (scan repeatEvery now store).1 =
      store.map (fun s => (scanOne repeatEvery now s).1) := by
  induction store with
  | nil => rfl
  | cons s rest ih => simp [scan, ih]

/-- Every event a subject contributes to a scan carries its own subject. -/
theorem scanOne_event_subject (repeatEvery now : Int) (s : state) :
    (∀ e ∈ (scanOne repeatEvery now s).2.1, e.subject = s.subject) ∧
    (∀ e ∈ (scanOne repeatEvery now s).2.2, e.subject = s.subject) := by
  unfold scanOne
  dsimp only
  split <;> split <;> simp_all <;> split <;> simp

/-- A scan over a store that does not contain a subject emits no event for
that subject. -/
theorem scan_countP_not_mem (repeatEvery now : Int) (store : List state)
    (subj : String) (h : ∀ t ∈ store, t.subject ≠ subj) :
    (scan repeatEvery now store).2.1.countP (fun e => e.subject == subj) = 0 ∧
    (scan repeatEvery now store).2.2.countP (fun e => e.subject == subj) = 0 := by
  induction store with
  | nil => exact ⟨rfl, rfl⟩
  | cons t rest ih =>
    have ht := h t (List.mem_cons_self t rest)
    have hrest := ih (fun u hu => h u (List.mem_cons_of_mem t hu))
    obtain ⟨he1, he2⟩ := scanOne_event_subject repeatEvery now t
    constructor <;>
      · simp only [scan, List.countP_append]
        rw [List.countP_eq_zero.2, Nat.zero_add]
        · first
            | exact hrest.1
            | exact hrest.2
        · intro e hmem
          simp only [beq_iff_eq]
          first
            | rw [he1 e hmem]; exact ht
            | rw [he2 e hmem]; exact ht

/-- In a store with pairwise-distinct subjects, the events of a scan tick
attributed to a stored subject are exactly the events its own scan body
emits. -/
theorem scan_countP_of_mem (repeatEvery now : Int) (store : List state)
    (s : state) (hs : s ∈ store)
    (hu : store.Pairwise (fun a b => a.subject ≠ b.subject)) :
    (scan repeatEvery now store).2.1.countP (fun e => e.subject == s.subject)
      = (scanOne repeatEvery now s).2.1.length ∧
    (scan repeatEvery now store).2.2.countP (fun e => e.subject == s.subject)
      = (scanOne repeatEvery now s).2.2.length := by
  induction store with
  | nil => cases hs
  | cons t rest ih =>
    rw [List.pairwise_cons] at hu
    obtain ⟨hts, hrest⟩ := hu
    rcases List.mem_cons.1 hs with rfl | hmem
    · have hzero := scan_countP_not_mem repeatEvery now rest s.subject
        (fun u hu' => (hts u hu').symm)
      obtain ⟨he1, he2⟩ := scanOne_event_subject repeatEvery now s
      constructor <;>
        · simp only [scan, List.countP_append]
          rw [List.countP_eq_length.2, Nat.add_comm]
          · rw [Nat.add_comm]
            first
              | rw [hzero.1, Nat.add_zero]
              | rw [hzero.2, Nat.add_zero]
          · intro e hmem'
            simp only [beq_iff_eq]
            first
              | exact he1 e hmem'
              | exact he2 e hmem'
    · have hone := ih hmem hrest
      have hne : t.subject ≠ s.subject := hts s hmem
      obtain ⟨he1, he2⟩ := scanOne_event_subject repeatEvery now t
      constructor <;>
        · simp only [scan, List.countP_append]
          rw [List.countP_eq_zero.2, Nat.zero_add]
          · first
              | exact hone.1
              | exact hone.2
          · intro e hmem'
            simp only [beq_iff_eq]
            first
              | rw [he1 e hmem']; exact hne
              | rw [he2 e hmem']; exact hne

/-- The known-subject update always installs the message interval. -/
theorem ingestUpdate_interval (hb : Heartbeat.Message) (t : state) :
    (ingestUpdate hb t).interval = hb.interval := by
  unfold ingestUpdate
  dsimp only
  split <;> rfl

/-- handleMessage preserves positivity of all stored intervals: it only
installs intervals that passed Validate. -/
theorem handleMessage_interval_pos (payload : Option Heartbeat.JObj)
    (store : List state) (h : ∀ s ∈ store, 0 < s.interval) :
    ∀ t ∈ (handleMessage payload store).1, 0 < t.interval := by
  intro t ht
  unfold handleMessage at ht
  split at ht
  · exact h t ht
  · rename_i hb hok
    have hv := Heartbeat.Unmarshal_ok_Validate hok
    have hpos : 0 < hb.interval :=
      ((Heartbeat.Message.Validate_eq_none_iff hb).1 hv).2.2.1
    split at ht
    · rcases List.mem_append.1 ht with hmem | hmem
      · exact h t hmem
      · rw [List.mem_singleton.1 hmem]
        exact hpos
    · have hmap : t ∈ store.map
          (fun u => if u.subject == hb.subject then ingestUpdate hb u else u) := by
        split at ht <;> exact ht
      obtain ⟨u, hu, rfl⟩ := List.mem_map.1 hmap
      by_cases hus : u.subject == hb.subject
      · rw [if_pos hus, ingestUpdate_interval]
        exact hpos
      · rw [if_neg hus]
        exact h u hu

/-- A scan tick preserves positivity of all stored intervals. -/
theorem scan_interval_pos (repeatEvery now : Int) (store : List state)
    (h : ∀ s ∈ store, 0 < s.interval) :
    ∀ t ∈ (scan repeatEvery now store).1, 0 < t.interval := by
  intro t ht
  rw [scan_fst] at ht
  obtain ⟨u, hu, rfl⟩ := List.mem_map.1 ht
  rw [(scanOne_preserves repeatEvery now u).2.2.1]
  exact h u hu

/-- C1: for every subject state, allowedWindow() returns the grace period
when grace is set and positive, and returns the interval otherwise; in
particular a state with interval 3s and grace 5s has allowedWindow 5s. -/
theorem allowedWindow_grace_or_interval :
    (∀ (s : state) (g : Duration), s.grace = some g → 0 < g →
       s.allowedWindow = g) ∧
    (∀ s : state, (∀ g, s.grace = some g → g ≤ 0) →
       s.allowedWindow = s.interval) ∧
    (∀ s : state, s.interval = 3 * second → s.grace = some (5 * second) →
       s.allowedWindow = 5 * second) := by
  refine ⟨?_, ?_, ?_⟩
  · intro s g hg hpos
    unfold state.allowedWindow
    rw [hg]
    simp [hpos]
  · intro s hg
    unfold state.allowedWindow
    rcases hs : s.grace with _ | g
    · rfl
    · simp [not_lt.2 (hg g hs)]
  · intro s _ hg
    unfold state.allowedWindow
    rw [hg]
    show (if (0:Int) < 5 * second then 5 * second else s.interval) = 5 * second
    rw [if_pos (by decide : (0:Int) < 5 * second)]

/-- Witness for C1 at concrete states: grace 5s wins over interval 3s, and
a graceless state falls back to its interval. -/
theorem allowedWindow_grace_or_interval_witness :
    graceSt.allowedWindow = 5 * second ∧
    (newState msg0).allowedWindow = (newState msg0).interval :=
  ⟨allowedWindow_grace_or_interval.2.2 graceSt rfl rfl,
   allowedWindow_grace_or_interval.2.1 (newState msg0)
     (fun g hg => by simp [newState, msg0] at hg)⟩

/-- C2: on a scan tick, a subject whose elapsed time exceeds its allowed
window gets missCount recomputed as the floor of elapsed/interval, and if
it was in OK it transitions to MISSING with lastAlert set to now and
exactly one Alert event emitted and no Resolved event. -/
theorem scan_miss_recomputes_and_alerts :
    ∀ (repeatEvery now : Int) (s : state),
      0 < s.interval →
      s.allowedWindow < now - s.lastSeen →
      ((scanOne repeatEvery now s).1.missCount = (now - s.lastSeen) / s.interval ∧
       (s.alertActive = false →
         (scanOne repeatEvery now s).1.alertActive = true ∧
         (scanOne repeatEvery now s).1.lastAlert = now ∧
         (scanOne repeatEvery now s).2.1 =
           [{ subject := s.subject, description := s.description, host := s.host,
              lastSeen := s.lastSeen, interval := s.interval,
              missFor := now - s.lastSeen,
              missCount := (now - s.lastSeen) / s.interval }] ∧
         (scanOne repeatEvery now s).2.2 = [])) := by
  intro r now s hpos hw
  have he : (0:Int) ≤ now - s.lastSeen := (lt_trans (allowedWindow_pos hpos) hw).le
  have htd : (now - s.lastSeen).tdiv s.interval = (now - s.lastSeen) / s.interval :=
    Int.tdiv_eq_ediv he hpos.le
  constructor
  · cases ha : s.alertActive with
    | false => rw [scanOne_alert hw ha]; simpa using htd
    | true =>
      by_cases hr : r ≤ now - s.lastAlert
      · rw [scanOne_repeat hw ha hr]; simpa using htd
      · rw [scanOne_debounce hw ha (not_le.1 hr)]; simpa using htd
  · intro ha
    rw [scanOne_alert hw ha]
    refine ⟨rfl, rfl, ?_, rfl⟩
    simp [htd]

/-- Witness for C2: interval 1s, no grace, last seen 3s ago; the scan
finds the subject missing with missCount 3 and emits one Alert. -/
theorem scan_miss_recomputes_and_alerts_witness :
    (scanOne (43200 * second) (4 * second) (newState msg0)).1.missCount
        = (4 * second - second) / second ∧
    (4 * second - second) / second = 3 ∧
    (scanOne (43200 * second) (4 * second) (newState msg0)).2.1.length = 1 := by
  have h := scan_miss_recomputes_and_alerts (43200 * second) (4 * second)
    (newState msg0) (by decide) (by decide)
  refine ⟨?_, by decide, ?_⟩
  · simpa using h.1
  · rw [(h.2 rfl).2.2.1]
    rfl

/-- C4: a tick re-emits an Alert for an already-MISSING subject only when
now - lastAlert has reached repeatEvery, updating lastAlert to now; ticks
inside the debounce window emit no event for that subject and leave
lastAlert unchanged. -/
theorem scan_repeat_alert_debounce :
    ∀ (repeatEvery now : Int) (s : state),
      s.alertActive = true →
      s.allowedWindow < now - s.lastSeen →
      ((repeatEvery ≤ now - s.lastAlert →
          (scanOne repeatEvery now s).2.1 =
            [{ subject := s.subject, description := s.description, host := s.host,
               lastSeen := s.lastSeen, interval := s.interval,
               missFor := now - s.lastSeen,
               missCount := (now - s.lastSeen).tdiv s.interval }] ∧
          (scanOne repeatEvery now s).2.2 = [] ∧
          (scanOne repeatEvery now s).1.lastAlert = now) ∧
       (now - s.lastAlert < repeatEvery →
          (scanOne repeatEvery now s).2.1 = [] ∧
          (scanOne repeatEvery now s).2.2 = [] ∧
          (scanOne repeatEvery now s).1.lastAlert = s.lastAlert)) := by
  intro r now s ha hw
  constructor
  · intro hr
    rw [scanOne_repeat hw ha hr]
    exact ⟨rfl, rfl, rfl⟩
  · intro hr
    rw [scanOne_debounce hw ha hr]
    exact ⟨rfl, rfl, rfl⟩

/-- Witness for C4 on a MISSING subject: with a small repeatEvery the tick
re-alerts; with the 12h default the same tick is debounced and silent. -/
theorem scan_repeat_alert_debounce_witness :
    (scanOne second (4 * second) alertSt).2.1.length = 1 ∧
    (scanOne (43200 * second) (4 * second) alertSt).2.1 = [] := by
  have h1 := (scan_repeat_alert_debounce second (4 * second) alertSt rfl
    (by decide)).1 (by decide)
  have h2 := (scan_repeat_alert_debounce (43200 * second) (4 * second) alertSt rfl
    (by decide)).2 (by decide)
  exact ⟨by rw [h1.1]; rfl, h2.1⟩

/-- C6: a valid heartbeat for an unknown subject appends a fresh state
with the message fields and zeroed alert bookkeeping, and emits nothing. -/
theorem handleMessage_first_contact :
    ∀ (payload : Option Heartbeat.JObj) (hb : Heartbeat.Message)
      (store : List state),
      Heartbeat.Unmarshal payload = .ok hb →
      store.find? (fun t => t.subject == hb.subject) = none →
      ((handleMessage payload store).1 = store ++ [newState hb] ∧
       (handleMessage payload store).2 = [] ∧
       (newState hb).subject = hb.subject ∧
       (newState hb).description = descriptionOrSubject hb ∧
       (newState hb).host = hb.host ∧
       (newState hb).lastSeen = hb.generatedAt ∧
       (newState hb).interval = hb.interval ∧
       (newState hb).grace = hb.gracePeriod ∧
       (newState hb).alertActive = false ∧
       (newState hb).missCount = 0 ∧
       (newState hb).lastAlert = 0) := by
  intro payload hb store hok hfind
  have heq : handleMessage payload store = (store ++ [newState hb], []) := by
    unfold handleMessage
    simp only [hok, hfind]
  rw [heq]
  exact ⟨rfl, rfl, rfl, rfl, rfl, rfl, rfl, rfl, rfl, rfl, rfl⟩

/-- Witness for C6: the first-ever heartbeat for svc creates its state and
emits nothing. -/
theorem handleMessage_first_contact_witness :
    (handleMessage (some obj0) ([] : List state)).1 = [newState msg0] ∧
    (handleMessage (some obj0) ([] : List state)).2 = [] := by
  have h := handleMessage_first_contact (some obj0) msg0 [] rfl rfl
  refine ⟨?_, h.2.1⟩
  rw [h.1]
  rfl

/-- The known-subject update under an active alert, flattened. -/
theorem ingestUpdate_resolve (hb : Heartbeat.Message) (s : state)
    (ha : s.alertActive = true) :
    ingestUpdate hb s =
      { s with lastSeen := hb.generatedAt, interval := hb.interval,
               grace := hb.gracePeriod, host := hb.host,
               description := descriptionOrSubject hb,
               alertActive := false, missCount := 0 } := by
  simp [ingestUpdate, ha]

/-- C3: after a scan tick, every subject within its allowed window has
alertActive false; a previously MISSING subject inside the window is reset
(missCount 0, lastAlert zero) and, in a store with distinct subjects, the
tick emits exactly one Resolved and no Alert event for it. -/
theorem scan_settles_within_window :
    ∀ (repeatEvery now : Int) (store : List state),
      (∀ t ∈ (scan repeatEvery now store).1,
         now - t.lastSeen ≤ t.allowedWindow → t.alertActive = false) ∧
      (∀ s ∈ store,
         now - s.lastSeen ≤ s.allowedWindow → s.alertActive = true →
         ((scanOne repeatEvery now s).1.alertActive = false ∧
          (scanOne repeatEvery now s).1.missCount = 0 ∧
          (scanOne repeatEvery now s).1.lastAlert = 0 ∧
          (store.Pairwise (fun a b => a.subject ≠ b.subject) →
            (scan repeatEvery now store).2.2.countP
                (fun e => e.subject == s.subject) = 1 ∧
            (scan repeatEvery now store).2.1.countP
                (fun e => e.subject == s.subject) = 0))) := by
  intro r now store
  constructor
  · intro t ht hwt
    rw [scan_fst] at ht
    obtain ⟨s, hs, rfl⟩ := List.mem_map.1 ht
    obtain ⟨hsub, hls, hint, hgr⟩ := scanOne_preserves r now s
    have haw : (scanOne r now s).1.allowedWindow = s.allowedWindow := by
      unfold state.allowedWindow
      rw [hgr, hint]
    rw [hls, haw] at hwt
    cases ha : s.alertActive with
    | true => rw [scanOne_resolve hwt ha]
    | false => rw [scanOne_ok hwt ha]; exact ha
  · intro s hs hw ha
    refine ⟨?_, ?_, ?_, ?_⟩
    · rw [scanOne_resolve hw ha]
    · rw [scanOne_resolve hw ha]
    · rw [scanOne_resolve hw ha]
    · intro hu
      obtain ⟨h1, h2⟩ := scan_countP_of_mem r now store s hs hu
      rw [scanOne_resolve hw ha] at h1 h2
      exact ⟨by rw [h2]; rfl, by rw [h1]; rfl⟩

/-- Witness for C3: a one-subject store that recovered inside its window
settles to alertActive false with exactly one Resolved event. -/
theorem scan_settles_within_window_witness :
    ((scan (43200 * second) second [alertSt]).1.map
       (fun t => t.alertActive) = [false]) ∧
    (scan (43200 * second) second [alertSt]).2.2.countP
       (fun e => e.subject == alertSt.subject) = 1 := by
  have h := scan_settles_within_window (43200 * second) second [alertSt]
  have h2 := h.2 alertSt (List.mem_singleton.2 rfl) (by decide) rfl
  refine ⟨?_, (h2.2.2.2 (by simp)).1⟩
  rw [scan_fst]
  simp only [List.map_cons, List.map_nil, List.map_map]
  rw [@scanOne_resolve (43200 * second) second alertSt (by decide) rfl]

/-- C5 is refuted at a concrete input: a MISSING subject with a nonzero
lastAlert receives a valid heartbeat; handleMessage resolves it but leaves
lastAlert at its old nonzero value instead of clearing it. -/
theorem handleMessage_keeps_lastAlert_cex :
    alertSt.alertActive = true ∧
    Heartbeat.Unmarshal (some obj1) = .ok msg1 ∧
    msg1.subject = alertSt.subject ∧
    (handleMessage (some obj1) [alertSt]).1.map (fun t => t.lastAlert) = [7] ∧
    (7 : Time) ≠ 0 := by
  refine ⟨rfl, rfl, rfl, by rfl, by decide⟩

/-- C5 as amended: a valid heartbeat for a stored subject with an active
alert clears alertActive, resets missCount to 0 and emits exactly one
Resolved event, but leaves lastAlert unchanged (the code does not clear it
on this path; only the scan-side recovery does). -/
theorem handleMessage_resolve_no_lastAlert_clear :
    ∀ (payload : Option Heartbeat.JObj) (hb : Heartbeat.Message)
      (store : List state) (s : state),
      Heartbeat.Unmarshal payload = .ok hb →
      store.find? (fun t => t.subject == hb.subject) = some s →
      s.alertActive = true →
      ((handleMessage payload store).1 =
         store.map (fun t => if t.subject == hb.subject
                             then ingestUpdate hb t else t) ∧
       (ingestUpdate hb s).alertActive = false ∧
       (ingestUpdate hb s).missCount = 0 ∧
       (ingestUpdate hb s).lastAlert = s.lastAlert ∧
       (handleMessage payload store).2 =
         [{ subject := s.subject,
            description := descriptionOrSubject hb,
            host := hb.host,
            lastSeen := hb.generatedAt,
            interval := hb.interval,
            missFor := 0, missCount := 0 }]) := by
  intro payload hb store s hok hfind ha
  have hup := ingestUpdate_resolve hb s ha
  have heq : handleMessage payload store =
      (store.map (fun t => if t.subject == hb.subject
                           then ingestUpdate hb t else t),
       [{ subject := s.subject,
          description := descriptionOrSubject hb,
          host := hb.host,
          lastSeen := hb.generatedAt,
          interval := hb.interval,
          missFor := 0, missCount := 0 }]) := by
    unfold handleMessage
    simp only [hok, hfind, ha, if_true, hup]
  rw [heq, hup]
  exact ⟨rfl, rfl, rfl, rfl, rfl⟩

/-- Witness for C5 as amended, at the counterexample input: one Resolved
event, alert cleared, lastAlert untouched. -/
theorem handleMessage_resolve_no_lastAlert_clear_witness :
    (handleMessage (some obj1) [alertSt]).2.length = 1 ∧
    (ingestUpdate msg1 alertSt).alertActive = false ∧
    (ingestUpdate msg1 alertSt).lastAlert = alertSt.lastAlert := by
  have h := handleMessage_resolve_no_lastAlert_clear (some obj1) msg1
    [alertSt] alertSt rfl rfl rfl
  exact ⟨by rw [h.2.2.2.2]; rfl, h.2.1, h.2.2.2.1⟩

/-- C7: Unmarshal fails exactly on undecodable payloads and on decoded
messages violating the validation rules (empty subject, zero generated_at,
non-positive interval, negative skippable, negative grace); a payload that
fails to decode or validate leaves the store untouched and emits nothing. -/
theorem unmarshal_error_characterization :
    (Heartbeat.Unmarshal none = .error "invalid json") ∧
    (∀ o : Heartbeat.JObj, Heartbeat.jsonDecode o = none →
       Heartbeat.Unmarshal (some o) = .error "cannot unmarshal message") ∧
    (∀ (o : Heartbeat.JObj) (m : Heartbeat.Message),
       Heartbeat.jsonDecode o = some m →
       ((∃ e, Heartbeat.Unmarshal (some o) = .error e) ↔
         (m.subject = "" ∨ m.generatedAt = 0 ∨ m.interval ≤ 0 ∨
          (∃ k, m.skippable = some k ∧ k < 0) ∨
          (∃ g, m.gracePeriod = some g ∧ g < 0)))) ∧
    (∀ (d : Option Heartbeat.JObj) (store : List state),
       (∃ e, Heartbeat.Unmarshal d = .error e) →
       handleMessage d store = (store, [])) := by
  refine ⟨rfl, ?_, ?_, ?_⟩
  · intro o hdec
    unfold Heartbeat.Unmarshal
    simp only [hdec]
  · intro o m hdec
    have hiff : (∃ e, Heartbeat.Unmarshal (some o) = .error e) ↔
        m.Validate ≠ none := by
      unfold Heartbeat.Unmarshal
      simp only [hdec]
      cases hv : m.Validate with
      | none => simp [hv]
      | some e => simp [hv]
    rw [hiff, Heartbeat.Message.Validate_ne_none_iff]
  · intro d store he
    obtain ⟨e, he⟩ := he
    unfold handleMessage
    simp only [he]

/-- Witness for C7: undecodable bytes error out and are dropped without
touching an empty store. -/
theorem unmarshal_error_characterization_witness :
    Heartbeat.Unmarshal none = .error "invalid json" ∧
    handleMessage none ([] : List state) = ([], []) :=
  ⟨unmarshal_error_characterization.1,
   unmarshal_error_characterization.2.2.2 none [] ⟨"invalid json", rfl⟩⟩

/-- The snapshot rows are sorted by subject name. -/
theorem snapshot_sorted (now : Time) (store : List state) :
    List.Sorted (fun a b : subjectState => a.subject ≤ b.subject)
      (snapshot now store) := by
  unfold snapshot
  refine List.Pairwise.imp ?_
    (List.sorted_mergeSort ?_ ?_ (store.map (snapshotOne now)))
  · intro a b hab
    exact of_decide_eq_true hab
  · intro a b c hab hbc
    simp only [decide_eq_true_eq] at *
    exact le_trans hab hbc
  · intro a b
    simp only [Bool.or_eq_true, decide_eq_true_eq]
    exact le_total _ _

/-- C8: snapshot is a pure read: the store and the event stream are left
untouched, the rows are exactly the per-state views (sorted by subject
name), and each view keeps the stored alertActive while recomputing
missing from elapsed time alone — so it can report missing=true for a
subject whose alertActive is still false. -/
theorem snapshot_pure_sorted_read :
    ∀ (now : Time) (store : List state),
      (snapshotOp now store).1 = store ∧
      (snapshotOp now store).2.2 = [] ∧
      List.Sorted (fun a b : subjectState => a.subject ≤ b.subject)
        ((snapshotOp now store).2.1) ∧
      ((snapshotOp now store).2.1).Perm (store.map (snapshotOne now)) ∧
      (∀ s : state,
         (snapshotOne now s).alertActive = s.alertActive ∧
         (snapshotOne now s).missing =
           decide (s.allowedWindow < now - s.lastSeen)) := by
  intro now store
  refine ⟨rfl, rfl, snapshot_sorted now store,
    List.mergeSort_perm _ _, ?_⟩
  intro s
  exact ⟨rfl, rfl⟩

/-- C9: every state in a reachable store has a positive interval (the
unguarded division in scan cannot divide by zero), and for such states the
interval guard in snapshot is redundant: the guarded miss count equals the
unguarded quotient whenever the row is missing. -/
theorem reachable_interval_pos :
    ∀ store : List state, Reachable store →
      ∀ s ∈ store,
        0 < s.interval ∧ s.interval ≠ 0 ∧
        (∀ now : Time,
          (snapshotOne now s).missCount =
            (if (snapshotOne now s).missing
             then (now - s.lastSeen).tdiv s.interval else 0)) := by
  intro store hreach
  have hmain : ∀ s ∈ store, 0 < s.interval := by
    induction hreach with
    | init => intro s hs; cases hs
    | ingest payload st hr ih => exact handleMessage_interval_pos payload st ih
    | tick r n st hr ih => exact scan_interval_pos r n st ih
  intro s hs
  refine ⟨hmain s hs, (hmain s hs).ne', ?_⟩
  intro now
  unfold snapshotOne
  simp [hmain s hs]

/-- Witness for C9 at the store reached by one ingested heartbeat. -/
theorem reachable_interval_pos_witness :
    0 < (newState msg0).interval ∧ (newState msg0).interval ≠ 0 := by
  have hmem : newState msg0 ∈ (handleMessage (some obj0) ([] : List state)).1 := by
    decide
  have h := reachable_interval_pos (handleMessage (some obj0) []).1
    (Reachable.ingest (some obj0) [] Reachable.init) (newState msg0) hmem
  exact ⟨h.1, h.2.1⟩

/-- C10: a message that passes Validate marshals successfully, and
unmarshalling the marshalled wire object returns the original message. -/
theorem marshal_unmarshal_roundtrip :
    ∀ m : Heartbeat.Message, m.Validate = none →
      (m.Marshal = .ok m.encodeFields ∧
       Heartbeat.Unmarshal (some m.encodeFields) = .ok m) := by
  intro m hv
  constructor
  · unfold Heartbeat.Message.Marshal
    simp only [hv]
  · unfold Heartbeat.Unmarshal
    simp only [Heartbeat.jsonDecode_encodeFields, hv]

/-- Witness for C10 at the minimal valid message. -/
theorem marshal_unmarshal_roundtrip_witness :
    msg0.Marshal = .ok msg0.encodeFields ∧
    Heartbeat.Unmarshal (some msg0.encodeFields) = .ok msg0 :=
  marshal_unmarshal_roundtrip msg0 rfl

end Monitor
